import Mathlib

/-!
Verification development for the `tomt` music-discovery pipeline.

This file gives a shallow embedding, in Lean, of the pieces of the Python
code base the claims are about:

* the data model (`src/tomt/models/post.py`, `src/tomt/models/song.py`);
* the catalog store (`src/tomt/storage/database.py`): `save_post`,
  `save_song` and the discovery-count/link relationship;
* the scraper (`src/tomt/scrapers/reddit.py`): music-relevance filter,
  status determination, audio-link extraction, submission conversion and
  the three scrape modes;
* the parser (`src/tomt/services/parser.py`): code-fence stripping,
  defensive JSON handling, song-id normalization, description extraction
  and solution extraction.

Modelling conventions:

* Python `datetime` values are represented by natural numbers (epoch
  seconds); nothing in the claims depends on calendar structure.
* The SQLite session is modelled by an explicit state (`DB`) holding the
  list of stored rows; JSON-serialized string-list columns
  (`audio_links_json`, `original_descriptions_json`) are modelled by their
  decoded values, since `json.dumps`/`json.loads` round-trip lists of
  strings exactly.
* `json.loads` and the network call to the text-extraction capability are
  external to the repository; they are passed to the parser functions as
  parameters (`decode : String → Option Json`, where `decode t = none`
  models a `json.JSONDecodeError`, and `api : String → String`, a
  deterministic single-turn response).
* Character classes (`str.isalnum`, `\w`, `\s`, case folding) are modelled
  at ASCII granularity, which covers every character the claims mention.
-/

namespace Tomt

/-- Epoch-seconds representation of Python `datetime` values. -/
abbrev DateTime := Nat

/-- Embedding of `PostStatus` from `src/tomt/models/post.py`; the Python
enum members `OPEN`, `SOLVED`, `UNSOLVED`, `UNKNOWN` carry the string
values "open", "solved", "unsolved", "unknown". -/
inductive PostStatus
  | OPEN
  | SOLVED
  | UNSOLVED
  | UNKNOWN
deriving DecidableEq

/-- Embedding of the Pydantic `Post` model (`src/tomt/models/post.py`). -/
structure Post where
  id : String
  subreddit : String
  title : String
  body : String
  author : String
  url : String
  created_at : DateTime
  scraped_at : DateTime
  status : PostStatus
  flair : Option String
  score : Int
  num_comments : Nat
  audio_links : List String
  description : Option String
  solution_comment_id : Option String
  solution_text : Option String
  identified_song_id : Option String
deriving DecidableEq

/-- Embedding of the Pydantic `Song` model (`src/tomt/models/song.py`). -/
structure Song where
  id : String
  title : String
  artist : String
  album : Option String
  year : Option Int
  spotify_url : Option String
  youtube_url : Option String
  apple_music_url : Option String
  discovered_at : DateTime
  source_post_ids : List String
  discovery_count : Nat
  original_descriptions : List String
deriving DecidableEq

/-! ## Catalog store (`src/tomt/storage/database.py`) -/

/-- Row of the `posts` table (`PostRecord`); fields mirror the columns,
with `audio_links_json` modelled by its decoded list. `PostRecord.from_model`
copies every Pydantic field into the row, so the row type coincides with
`Post`; we keep a separate name to mirror the source. -/
structure PostRecord where
  id : String
  subreddit : String
  title : String
  body : String
  author : String
  url : String
  created_at : DateTime
  scraped_at : DateTime
  status : PostStatus
  flair : Option String
  score : Int
  num_comments : Nat
  audio_links : List String
  description : Option String
  solution_comment_id : Option String
  solution_text : Option String
  identified_song_id : Option String
deriving DecidableEq

/-- Row of the `songs` table (`SongRecord`); `source_posts` is an ORM
relationship (derived from `posts.identified_song_id`), not a column, so it
does not appear here. -/
structure SongRecord where
  id : String
  title : String
  artist : String
  album : Option String
  year : Option Int
  spotify_url : Option String
  youtube_url : Option String
  apple_music_url : Option String
  discovered_at : DateTime
  discovery_count : Nat
  original_descriptions : List String
deriving DecidableEq

/-- `PostRecord.from_model` from `database.py`. -/
def PostRecord.from_model (post : Post) : PostRecord :=
  { id := post.id
    subreddit := post.subreddit
    title := post.title
    body := post.body
    author := post.author
    url := post.url
    created_at := post.created_at
    scraped_at := post.scraped_at
    status := post.status
    flair := post.flair
    score := post.score
    num_comments := post.num_comments
    audio_links := post.audio_links
    description := post.description
    solution_comment_id := post.solution_comment_id
    solution_text := post.solution_text
    identified_song_id := post.identified_song_id }

/-- `SongRecord.from_model` from `database.py`. -/
def SongRecord.from_model (song : Song) : SongRecord :=
  { id := song.id
    title := song.title
    artist := song.artist
    album := song.album
    year := song.year
    spotify_url := song.spotify_url
    youtube_url := song.youtube_url
    apple_music_url := song.apple_music_url
    discovered_at := song.discovered_at
    discovery_count := song.discovery_count
    original_descriptions := song.original_descriptions }

/-- State of the SQLite store: the rows of the `posts` and `songs` tables. -/
structure DB where
  posts : List PostRecord
  songs : List SongRecord
deriving DecidableEq

/-- The freshly initialized (empty) database. -/
def DB.empty : DB := { posts := [], songs := [] }

/-- `Database.save_post`: `session.get(PostRecord, post.id)`; if a row
exists, every non-underscore attribute of `PostRecord.from_model(post)` is
copied onto it (so the row becomes `from_model post`); otherwise the new
row is added. -/
def DB.save_post (db : DB) (post : Post) : DB :=
  if db.posts.any (fun r => r.id = post.id) then
    { db with posts := db.posts.map (fun r =>
        if r.id = post.id then PostRecord.from_model post else r) }
  else
    { db with posts := db.posts ++ [PostRecord.from_model post] }

/-- The description-merge loop of `Database.save_song`:
`for desc in song.original_descriptions: if desc not in descriptions:
descriptions.append(desc)` — the accumulator grows as the loop runs, so
duplicates inside the incoming list are also appended at most once. -/
def mergeDescriptions (old incoming : List String) : List String :=
  incoming.foldl (fun acc d => if d ∈ acc then acc else acc ++ [d]) old

/-- `Database.save_song`: if a song row with this id exists, increment its
`discovery_count` and merge the incoming descriptions; otherwise insert
`SongRecord.from_model song`. Then, if a source post was provided and a
post row with its id exists, set that row's `identified_song_id` to the
song's id. All in one transaction (one `session.commit()`). -/
def DB.save_song (db : DB) (song : Song) (source_post : Option Post) : DB :=
  let songs' :=
    if db.songs.any (fun r => r.id = song.id) then
      db.songs.map (fun r =>
        if r.id = song.id then
          { r with
            discovery_count := r.discovery_count + 1
            original_descriptions :=
              mergeDescriptions r.original_descriptions song.original_descriptions }
        else r)
    else
      db.songs ++ [SongRecord.from_model song]
  let posts' :=
    match source_post with
    | none => db.posts
    | some sp => db.posts.map (fun r =>
        if r.id = sp.id then { r with identified_song_id := some song.id } else r)
  { posts := posts', songs := songs' }

/-- Number of post rows currently linked to the song id `sid`
(the read side of the `source_posts` relationship). -/
def DB.linkCount (db : DB) (sid : String) : Nat :=
  (db.posts.filter (fun r => r.identified_song_id = some sid)).length

/-- The spec's discovery-count invariant: every stored song's
`discovery_count` equals the number of posts whose `identified_song_id`
is that song's id. -/
def DB.countInv (db : DB) : Prop :=
  ∀ r ∈ db.songs, r.discovery_count = db.linkCount r.id

instance (db : DB) : Decidable db.countInv := by
  unfold DB.countInv
  infer_instance

/-- A write operation against the store. -/
inductive StoreOp
  | savePost (p : Post)
  | saveSong (s : Song) (sp : Option Post)

/-- Apply one store operation. -/
def DB.applyOp (db : DB) : StoreOp → DB
  | .savePost p => db.save_post p
  | .saveSong s sp => db.save_song s sp

/-- State reached by running a sequence of store operations from the
freshly initialized database. -/
def runOps (ops : List StoreOp) : DB :=
  ops.foldl DB.applyOp DB.empty

/-! ## String and regex machinery for the scraper

The scraper's regexes (`MUSIC_FLAIR_PATTERNS`, `AUDIO_LINK_PATTERNS` in
`src/tomt/scrapers/reddit.py`) are compiled with `re.IGNORECASE` and are
built only from literals, optional literals, alternations of literals and
greedy `+`/`*` character classes, where each class excludes the character
that follows it, so a greedy matcher without backtracking is exact for
them. -/

/-- Python's `sub in s` substring test. -/
def containsSub (s sub : String) : Bool :=
  s.data.tails.any (fun t => sub.data.isPrefixOf t)

/-- Python's `str.lower()` (ASCII case folding, like `Char.toLower`),
defined character-wise so that the kernel can evaluate it on concrete
inputs. -/
def pyLower (s : String) : String := String.mk (s.data.map Char.toLower)

/-- One element of a compiled pattern. -/
inductive RElem
  | lit (s : List Char)
  | optLit (s : List Char)
  | altLit (ss : List (List Char))
  | cls1 (cls : Char → Bool)
  | star (cls : Char → Bool)

/-- A compiled pattern is a sequence of elements. -/
abbrev Pattern := List RElem

/-- Case-insensitive literal match at the head of the input; returns the
consumed characters (in original case, as Python's `findall` does) and the
rest. -/
def matchLit : List Char → List Char → Option (List Char × List Char)
  | [], cs => some ([], cs)
  | _ :: _, [] => none
  | l :: ls, c :: cs =>
    if l.toLower == c.toLower then
      (matchLit ls cs).map (fun mr => (c :: mr.1, mr.2))
    else none

/-- Greedy run of characters of a class. -/
def takeCls (cls : Char → Bool) : List Char → List Char × List Char
  | [] => ([], [])
  | c :: cs =>
    if cls c then
      let mr := takeCls cls cs
      (c :: mr.1, mr.2)
    else ([], c :: cs)

/-- First alternative of an alternation that matches (regex alternation is
left-to-right; the alternatives used in the source are not prefixes of one
another). -/
def matchAlt : List (List Char) → List Char → Option (List Char × List Char)
  | [], _ => none
  | s :: ss, cs =>
    match matchLit s cs with
    | some mr => some mr
    | none => matchAlt ss cs

/-- Match one pattern element at the head of the input. -/
def matchElem : RElem → List Char → Option (List Char × List Char)
  | .lit s, cs => matchLit s cs
  | .optLit s, cs =>
    (match matchLit s cs with
     | some mr => some mr
     | none => some ([], cs))
  | .altLit ss, cs => matchAlt ss cs
  | .cls1 f, cs =>
    let mr := takeCls f cs
    if mr.1.isEmpty then none else some mr
  | .star f, cs => some (takeCls f cs)

/-- Match a whole pattern at the head of the input. -/
def matchPat : Pattern → List Char → Option (List Char × List Char)
  | [], cs => some ([], cs)
  | e :: es, cs =>
    match matchElem e cs with
    | none => none
    | some mr =>
      match matchPat es mr.2 with
      | none => none
      | some mr2 => some (mr.1 ++ mr2.1, mr2.2)

/-- Python's `pattern.search(s)`: does the pattern match starting at some
position? -/
def searchPat (p : Pattern) (cs : List Char) : Bool :=
  cs.tails.any (fun t => (matchPat p t).isSome)

/-- Scanning loop of `pattern.findall(s)`: leftmost matches, resuming after
the end of each match. The fuel argument only forces termination; every
pattern in the source begins with a mandatory literal, so each step
consumes at least one character and the initial fuel is never exhausted. -/
def findAllAux (p : Pattern) : Nat → List Char → List (List Char)
  | 0, _ => []
  | _ + 1, [] => []
  | fuel + 1, c :: cs =>
    match matchPat p (c :: cs) with
    | some mr =>
      if mr.1.isEmpty then findAllAux p fuel cs
      else mr.1 :: findAllAux p fuel mr.2
    | none => findAllAux p fuel cs

/-- Python's `pattern.findall(s)` (each source pattern is one capture group
spanning the whole match). -/
def findAll (p : Pattern) (cs : List Char) : List (List Char) :=
  findAllAux p (cs.length + 1) cs

/-- ASCII rendering of the regex class `\w`. -/
def isWordChar (c : Char) : Bool := c.isAlphanum || c == '_'

/-- ASCII rendering of the regex class `[\w-]`. -/
def isWordDash (c : Char) : Bool := isWordChar c || c == '-'

/-- ASCII rendering of the regex class `[\w.-]`. -/
def isWordDotDash (c : Char) : Bool := isWordChar c || c == '.' || c == '-'

/-- Literal pattern element from a string. -/
def plit (s : String) : RElem := .lit s.data

/-- Optional-literal pattern element from a string. -/
def poptLit (s : String) : RElem := .optLit s.data

/-- The shared regex chunk `https?://`. -/
def schemePat : Pattern := [plit "http", poptLit "s", plit "://"]

/-- The optional chunk `(?:www\.)?`. -/
def wwwOpt : RElem := poptLit "www."

namespace RedditScraper

/-- Compiled `MUSIC_FLAIR_PATTERNS` from `src/tomt/scrapers/reddit.py`:
`\[TOMT\]\s*\[(?:song|music|band|artist)`, `\[song\]`, `\[music\]`,
all with `re.IGNORECASE`. -/
def MUSIC_FLAIR_PATTERNS : List Pattern :=
  [ [plit "[TOMT]", RElem.star Char.isWhitespace, plit "[",
     RElem.altLit ["song".data, "music".data, "band".data, "artist".data]]
  , [plit "[song]"]
  , [plit "[music]"] ]

/-- Compiled `AUDIO_LINK_PATTERNS` from `src/tomt/scrapers/reddit.py`,
in source order. -/
def AUDIO_LINK_PATTERNS : List Pattern :=
  [ schemePat ++ [wwwOpt, plit "youtube.com/watch?v=", RElem.cls1 isWordDash]
  , schemePat ++ [wwwOpt, plit "youtu.be/", RElem.cls1 isWordDash]
  , schemePat ++ [wwwOpt, plit "soundcloud.com/", RElem.cls1 isWordDash,
                  plit "/", RElem.cls1 isWordDash]
  , schemePat ++ [wwwOpt, plit "vocaroo.com/", RElem.cls1 isWordDash]
  , schemePat ++ [plit "voca.ro/", RElem.cls1 isWordDash]
  , schemePat ++ [wwwOpt, plit "clyp.it/", RElem.cls1 isWordDash]
  , schemePat ++ [wwwOpt, plit "onlinesequencer.net/", RElem.cls1 isWordDash]
  , schemePat ++ [wwwOpt, plit "spotify.com/track/", RElem.cls1 isWordDash]
  , schemePat ++ [plit "open.spotify.com/track/", RElem.cls1 isWordDash]
  , schemePat ++ [wwwOpt, plit "tiktok.com/@", RElem.cls1 isWordDotDash,
                  plit "/video/", RElem.cls1 Char.isDigit]
  , schemePat ++ [wwwOpt, plit "reddit.com/link/", RElem.cls1 isWordDash,
                  plit "/video/", RElem.cls1 isWordDash]
  , schemePat ++ [plit "v.redd.it/", RElem.cls1 isWordDash]
  , schemePat ++ [wwwOpt, plit "streamable.com/", RElem.cls1 isWordDash] ]

/-- A raw praw `Submission`, restricted to the fields the scraper reads.
`selftext` and `link_flair_text` can be `None` in praw, and the code guards
them with `or ""`; `author` is `None` for deleted accounts. -/
structure Submission where
  id : String
  subreddit_display_name : String
  title : String
  selftext : Option String
  author : Option String
  permalink : String
  created_utc : DateTime
  link_flair_text : Option String
  score : Int
  num_comments : Nat
deriving DecidableEq

/-- `RedditScraper._is_music_post`: dedicated music subreddits always pass;
for r/tipofmytongue the lowered flair is checked for the substrings "song"
or "music", then the title is searched with the music patterns; any other
subreddit passes unconditionally. -/
def is_music_post (sub : Submission) : Bool :=
  let subreddit_name := pyLower sub.subreddit_display_name
  if subreddit_name == "whatsthissong" || subreddit_name == "namethatsong" then
    true
  else if subreddit_name == "tipofmytongue" then
    let flair := pyLower (sub.link_flair_text.getD "")
    if containsSub flair "song" || containsSub flair "music" then true
    else MUSIC_FLAIR_PATTERNS.any (fun p => searchPat p sub.title.data)
  else
    true

/-- `RedditScraper._extract_audio_links`: `findall` for every pattern in
order, concatenated, then `list(set(links))`. CPython's set iteration
order is an implementation detail; it is modelled here by the
first-occurrence deduplication, which is a deterministic function of the
concatenated match list, exactly as `list(set(...))` is within one
process. -/
def extract_audio_links (text : String) : List String :=
  let links := (AUDIO_LINK_PATTERNS.map (fun p =>
    (findAll p text.data).map String.mk)).flatten
  links.foldl (fun acc x => if x ∈ acc then acc else acc ++ [x]) []

/-- `RedditScraper._determine_status`: lowered flair (empty when absent),
checked against indicator substrings, first rule winning. -/
def determine_status (link_flair_text : Option String) : PostStatus :=
  let flair := pyLower (link_flair_text.getD "")
  if containsSub flair "solved" || containsSub flair "answered" then .SOLVED
  else if containsSub flair "open" || containsSub flair "searching" then .OPEN
  else if containsSub flair "unsolved" || containsSub flair "closed" then .UNSOLVED
  else .UNKNOWN

/-- `RedditScraper._submission_to_post`; `now` stands for the
`datetime.utcnow()` produced by the Pydantic `scraped_at` default factory
at conversion time. -/
def submission_to_post (sub : Submission) (now : DateTime) : Post :=
  let body := sub.selftext.getD ""
  let audio_links := extract_audio_links (sub.title ++ " " ++ body)
  { id := sub.id
    subreddit := sub.subreddit_display_name
    title := sub.title
    body := body
    author := match sub.author with | some a => a | none => "[deleted]"
    url := "https://reddit.com" ++ sub.permalink
    created_at := sub.created_utc
    scraped_at := now
    status := determine_status sub.link_flair_text
    flair := sub.link_flair_text
    score := sub.score
    num_comments := sub.num_comments
    audio_links := audio_links
    description := none
    solution_comment_id := none
    solution_text := none
    identified_song_id := none }

/-- `RedditScraper.scrape_new`, applied to the submissions the praw
listing yields (the network listing itself is the external thread-source
capability): music posts are converted and yielded, the rest are skipped. -/
def scrape_new (listing : List Submission) (now : DateTime) : List Post :=
  (listing.filter is_music_post).map (fun s => submission_to_post s now)

/-- `RedditScraper.scrape_hot`: same filter and conversion as
`scrape_new`, over the hot listing. -/
def scrape_hot (listing : List Submission) (now : DateTime) : List Post :=
  (listing.filter is_music_post).map (fun s => submission_to_post s now)

/-- `RedditScraper.scrape_solved`: same filter and conversion over the
`flair:solved OR flair:answered` search listing, but after conversion the
code set `post.status = PostStatus.SOLVED` unconditionally. -/
def scrape_solved (listing : List Submission) (now : DateTime) : List Post :=
  (listing.filter is_music_post).map
    (fun s => { submission_to_post s now with status := PostStatus.SOLVED })

end RedditScraper

/-! ## Parser (`src/tomt/services/parser.py`)

The `json.loads` call and the single-turn extraction request are external
capabilities: they enter the definitions as parameters
`decode : String → Option Json` (`decode t = none` models a
`json.JSONDecodeError` on `t`) and `api : String → String` (prompt to
response text). -/

/-- A decoded Python JSON value, as produced by `json.loads`. -/
inductive Json
  | null
  | bool (b : Bool)
  | num (n : Int)
  | str (s : String)
  | arr (xs : List Json)
  | obj (kvs : List (String × Json))

/-- Python truthiness of a decoded JSON value, used by
`if result.get("found"):`. -/
def Json.truthy : Json → Bool
  | .null => false
  | .bool b => b
  | .num n => n != 0
  | .str s => s != ""
  | .arr xs => !xs.isEmpty
  | .obj kvs => !kvs.isEmpty

/-- Truthiness of `dict.get(key)`: a missing key gives Python `None`,
which is falsy. -/
def truthyOpt : Option Json → Bool
  | none => false
  | some j => j.truthy

/-- `dict` lookup (`result.get(key)` / `result[key]`); when `json.loads`
sees a duplicated key the last occurrence wins, hence the reverse. -/
def pyDictGet (kvs : List (String × Json)) (k : String) : Option Json :=
  (kvs.reverse.find? (fun kv => kv.1 == k)).map (fun kv => kv.2)

/-- Python `str(...)` / f-string interpolation of a decoded JSON value.
The composite renderings are never observable in a value the parser
returns: a `Song` is only constructed when artist and title are strings,
and on every other path the interpolated id is discarded before the
surrounding `ValidationError` propagates. -/
def Json.pyStr : Json → String
  | .null => "None"
  | .bool true => "True"
  | .bool false => "False"
  | .num n => toString n
  | .str s => s
  | .arr _ => "[...]"
  | .obj _ => "\x7b...\x7d"

/-- The code-fence handling shared by both parser operations:
`response_text.split("```json")[1].split("```")[0]` when a language-tagged
fence is present, else the same with a bare fence, else the text itself. -/
def stripFence (s : String) : String :=
  if containsSub s "```json" then
    (((s.splitOn "```json").getD 1 "").splitOn "```").getD 0 ""
  else if containsSub s "```" then
    (((s.splitOn "```").getD 1 "").splitOn "```").getD 0 ""
  else s

/-- The song-id construction in `PostParser.extract_solution`:
`f"{artist}_{title}".lower()`, then every non-alphanumeric character
replaced by an underscore. -/
def mkSongId (artist title : String) : String :=
  String.mk (((artist.data ++ '_' :: title.data).map Char.toLower).map
    (fun c => if c.isAlphanum then c else '_'))

/-- Modelled from the spec (claim C3 wording): normalization of one
identity component — lower-case it and replace every non-alphanumeric
character with an underscore. Stated for comparison against `mkSongId`,
which the code applies to the already concatenated pair. -/
def specNormalize (s : String) : String :=
  String.mk ((s.data.map Char.toLower).map
    (fun c => if c.isAlphanum then c else '_'))

/-- A comment dict as produced by `RedditScraper.get_post_with_comments`. -/
structure Comment where
  id : String
  author : String
  body : String
  score : Int
  created_at : DateTime
  is_submitter : Bool
  is_op_reply : Bool
deriving DecidableEq

/-- One line of the comments block of the solution prompt:
`f"[Comment ID: {id}] (score: {score}, by: {author})\n{body}"`. -/
def commentLine (c : Comment) : String :=
  "[Comment ID: " ++ c.id ++ "] (score: " ++ toString c.score ++ ", by: "
    ++ c.author ++ ")\n" ++ c.body

/-- The comments block: the first 50 comments, formatted and joined by
blank lines. -/
def commentsText (comments : List Comment) : String :=
  String.intercalate "\n\n" ((comments.take 50).map commentLine)

/-- `EXTRACT_DESCRIPTION_PROMPT.format(title=..., body=...)`. -/
def EXTRACT_DESCRIPTION_PROMPT (title body : String) : String :=
  "You are analyzing a \"tip of my tongue\" post where someone is trying to identify a song they can\x27t remember.\n\nExtract a clean, searchable description of the song from this post. Focus on:\n- Genre or style mentioned\n- Era/decade the song might be from\n- Memorable lyrics or phrases\n- Instruments or sounds mentioned\n- Where they heard it (movie, commercial, etc.)\n- Mood or feeling of the song\n- Male/female vocals\n- Any other distinctive characteristics\n\nPost Title: "
    ++ title
    ++ "\n\nPost Body:\n"
    ++ body
    ++ "\n\nRespond with a JSON object:\n\x7b\n    \"description\": \"A clean 1-3 sentence description of the song being searched for\",\n    \"genre_hints\": [\"list\", \"of\", \"possible\", \"genres\"],\n    \"era_hint\": \"decade or year range if mentioned, null otherwise\",\n    \"has_lyrics\": true/false,\n    \"partial_lyrics\": \"any lyrics mentioned, or null\",\n    \"mood\": \"mood/feeling if described, or null\",\n    \"voice_type\": \"male/female/unknown\",\n    \"context\": \"where they heard it (movie, game, etc.) or null\"\n\x7d"

/-- `EXTRACT_SOLUTION_PROMPT.format(title=..., body=..., comments=...)`. -/
def EXTRACT_SOLUTION_PROMPT (title body comments : String) : String :=
  "You are analyzing comments on a \"tip of my tongue\" post that has been marked as SOLVED.\n\nThe original poster was looking for a song. Find the comment that correctly identified the song.\n\nPost Title: "
    ++ title
    ++ "\nPost Body: "
    ++ body
    ++ "\n\nComments:\n"
    ++ comments
    ++ "\n\nIf you can identify the solution, respond with a JSON object:\n\x7b\n    \"found\": true,\n    \"song_title\": \"Title of the song\",\n    \"artist\": \"Artist name\",\n    \"album\": \"Album name if mentioned, or null\",\n    \"year\": year as integer if mentioned, or null,\n    \"comment_id\": \"ID of the comment with the answer\",\n    \"confidence\": \"high/medium/low\"\n\x7d\n\nIf you cannot find a clear solution, respond with:\n\x7b\n    \"found\": false,\n    \"reason\": \"Brief explanation why\"\n\x7d"

/-- Pydantic validation of an `Optional[str]` field from a decoded JSON
value (`None` for a missing key): `None`/absent passes as `None`, a string
passes, anything else is a `ValidationError`. -/
def pydOptStr : Option Json → Option (Option String)
  | none => some none
  | some Json.null => some none
  | some (Json.str s) => some (some s)
  | some _ => none

/-- Pydantic (v2, lax mode) validation of an `Optional[int]` field:
`None`/absent passes as `None`, an integer passes, a trimmed integer
string is coerced, anything else is a `ValidationError`. -/
def pydOptInt : Option Json → Option (Option Int)
  | none => some none
  | some Json.null => some none
  | some (Json.num n) => some (some n)
  | some (Json.str s) =>
    (match s.trim.toInt? with
     | some n => some (some n)
     | none => none)
  | some _ => none

namespace PostParser

/-- `PostParser.extract_description`: build the prompt, call the
capability, strip a code fence, decode; on `JSONDecodeError` return the
fallback dict built around the post's title. -/
def extract_description (decode : String → Option Json) (api : String → String)
    (post : Post) : Json :=
  let prompt := EXTRACT_DESCRIPTION_PROMPT post.title post.body
  let response_text := api prompt
  match decode ((stripFence response_text).trim) with
  | some j => j
  | none =>
    Json.obj
      [ ("description", Json.str post.title)
      , ("genre_hints", Json.arr [])
      , ("era_hint", Json.null)
      , ("has_lyrics", Json.bool false)
      , ("partial_lyrics", Json.null)
      , ("mood", Json.null)
      , ("voice_type", Json.str "unknown")
      , ("context", Json.null) ]

/-- `PostParser.extract_solution`, with uncaught Python exceptions
surfaced as `Except.error`: an empty comment list returns `None` before
any capability call; a `JSONDecodeError` or a `KeyError` on
`result["artist"]` / `result["song_title"]` is caught and returns `None`;
`result.get` on a decoded non-dict raises `AttributeError`, and a `Song`
whose title or artist value is not a string (or whose album/year fail
validation) raises `ValidationError`, neither of which the function
catches. `now` stands for the `discovered_at` default factory value. -/
def extract_solution (decode : String → Option Json) (api : String → String)
    (post : Post) (comments : List Comment) (now : DateTime) :
    Except String (Option Song) :=
  if comments.isEmpty then .ok none
  else
    let comments_text := commentsText comments
    let prompt := EXTRACT_SOLUTION_PROMPT post.title post.body comments_text
    let response_text := api prompt
    match decode ((stripFence response_text).trim) with
    | none => .ok none
    | some (Json.obj kvs) =>
      if truthyOpt (pyDictGet kvs "found") then
        match pyDictGet kvs "artist", pyDictGet kvs "song_title" with
        | some a, some t =>
          let song_id := mkSongId a.pyStr t.pyStr
          (match t, a with
           | Json.str ti, Json.str ar =>
             (match pydOptStr (pyDictGet kvs "album"),
                    pydOptInt (pyDictGet kvs "year") with
              | some album, some year =>
                .ok (some
                  { id := song_id
                    title := ti
                    artist := ar
                    album := album
                    year := year
                    spotify_url := none
                    youtube_url := none
                    apple_music_url := none
                    discovered_at := now
                    source_post_ids := [post.id]
                    discovery_count := 1
                    original_descriptions := [] })
              | _, _ => .error "ValidationError")
           | _, _ => .error "ValidationError")
        | _, _ => .ok none
      else .ok none
    | some _ => .error "AttributeError"

end PostParser

/-! ## Concrete inputs used by witnesses and counterexamples -/

/-- A generic post used to instantiate parser theorems. -/
def c7post : Post :=
  { id := "p7", subreddit := "tipofmytongue", title := "80s synth song",
    body := "heard in a mall", author := "u7", url := "https://reddit.com/x",
    created_at := 5, scraped_at := 6, status := PostStatus.OPEN,
    flair := none, score := 3, num_comments := 1, audio_links := [],
    description := none, solution_comment_id := none, solution_text := none,
    identified_song_id := none }

/-- A submission from a subreddit outside the three curated ones. -/
def musicSub : RedditScraper.Submission :=
  { id := "m1", subreddit_display_name := "Music", title := "a post",
    selftext := some "", author := some "u", permalink := "/r/Music/1",
    created_utc := 0, link_flair_text := none, score := 0, num_comments := 0 }

/-! ## Claims -/

/-- Helper for claim C3: the code's id construction normalizes the
already-concatenated `artist_title` string; characterwise, that is the
same as normalizing each component and concatenating. -/
theorem mkSongId_decomp (a t : String) :
    mkSongId a t = specNormalize a ++ "_" ++ specNormalize t := by
  apply String.ext
  rw [String.data_append, String.data_append]
  show _ = _ ++ "_".data ++ _
  simp [mkSongId, specNormalize, List.map_append]

/-- Claim C3: the Song id is the artist and title normalized (lower-case,
non-alphanumeric characters replaced by underscores) and joined by an
underscore, so any two extractions agreeing after normalization produce
the same id, and `("New Order", "Blue Monday")` gives
`new_order_blue_monday`. -/
theorem songId_collapses (a₁ t₁ a₂ t₂ : String)
    (ha : specNormalize a₁ = specNormalize a₂)
    (ht : specNormalize t₁ = specNormalize t₂) :
    mkSongId a₁ t₁ = mkSongId a₂ t₂ ∧
    (∀ a t : String, mkSongId a t = specNormalize a ++ "_" ++ specNormalize t) ∧
    mkSongId "New Order" "Blue Monday" = "new_order_blue_monday" := by
  refine ⟨?_, mkSongId_decomp, by decide⟩
  rw [mkSongId_decomp, mkSongId_decomp, ha, ht]

/-- Witness for claim C3: two spellings of the same artist differing in
case and punctuation satisfy the hypotheses and collapse to one id. -/
theorem songId_collapses_witness :
    specNormalize "New Order" = specNormalize "new-order" ∧
    mkSongId "New Order" "Blue Monday" = mkSongId "new-order" "BLUE MONDAY" :=
  ⟨by decide, (songId_collapses "New Order" "Blue Monday" "new-order" "BLUE MONDAY"
      (by decide) (by decide)).1⟩

/-- Claim C8: converting the same submission twice yields posts that agree
on every field except `scraped_at`; in particular the audio-link lists are
equal. -/
theorem classify_idempotent (sub : RedditScraper.Submission) (t₁ t₂ : DateTime) :
    RedditScraper.submission_to_post sub t₁ =
      { RedditScraper.submission_to_post sub t₂ with scraped_at := t₁ } ∧
    (RedditScraper.submission_to_post sub t₁).audio_links =
      (RedditScraper.submission_to_post sub t₂).audio_links :=
  ⟨rfl, rfl⟩

/-- The fallback dict of `PostParser.extract_description`. -/
def fallbackObj (title : String) : Json :=
  Json.obj
    [ ("description", Json.str title)
    , ("genre_hints", Json.arr [])
    , ("era_hint", Json.null)
    , ("has_lyrics", Json.bool false)
    , ("partial_lyrics", Json.null)
    , ("mood", Json.null)
    , ("voice_type", Json.str "unknown")
    , ("context", Json.null) ]

/-- Claim C7: when the fence-stripped response text fails to decode as
JSON, description extraction returns (never raises) the fallback dict:
the post's raw title as description and neutral defaults for the other
hint fields. -/
theorem description_decode_failure (decode : String → Option Json)
    (api : String → String) (post : Post)
    (h : decode ((stripFence
        (api (EXTRACT_DESCRIPTION_PROMPT post.title post.body))).trim) = none) :
    PostParser.extract_description decode api post = fallbackObj post.title := by
  simp only [PostParser.extract_description]
  rw [h]
  rfl

/-- Witness for claim C7: a capability answering plain prose (not JSON)
triggers the fallback on a concrete post. -/
theorem description_decode_failure_witness :
    PostParser.extract_description (fun _ => none) (fun _ => "not json") c7post
      = fallbackObj "80s synth song" :=
  description_decode_failure (fun _ => none) (fun _ => "not json") c7post rfl

/-- Claim C10: a submission whose subreddit (lower-cased) is none of
tipofmytongue, whatsthissong, namethatsong is accepted by the music filter
unconditionally. -/
theorem uncurated_group_accepted (sub : RedditScraper.Submission)
    (h1 : pyLower sub.subreddit_display_name ≠ "tipofmytongue")
    (h2 : pyLower sub.subreddit_display_name ≠ "whatsthissong")
    (h3 : pyLower sub.subreddit_display_name ≠ "namethatsong") :
    RedditScraper.is_music_post sub = true := by
  unfold RedditScraper.is_music_post
  simp only [beq_iff_eq]
  rw [if_neg, if_neg h1]
  simp [h2, h3]

/-- Witness for claim C10: a thread from r/Music passes the filter. -/
theorem uncurated_group_accepted_witness :
    RedditScraper.is_music_post musicSub = true :=
  uncurated_group_accepted musicSub (by decide) (by decide) (by decide)

end Tomt

namespace Tomt

def openFlairSub : RedditScraper.Submission :=
  { id := "s5", subreddit_display_name := "WhatsThisSong", title := "what song is this",
    selftext := some "details", author := some "u5", permalink := "/r/WhatsThisSong/1",
    created_utc := 1, link_flair_text := some "Open", score := 2, num_comments := 4 }

theorem solved_mode_ignores_flair :
    (RedditScraper.scrape_solved [openFlairSub] 0).map Post.status = [PostStatus.SOLVED]
    ∧ RedditScraper.determine_status openFlairSub.link_flair_text = PostStatus.OPEN :=
  ⟨by decide, by decide⟩

theorem status_from_flair_precedence (sub₁ sub₂ : RedditScraper.Submission)
    (now : DateTime) (f₁ f₂ f₃ f₄ : Option String) :
    (∀ p ∈ RedditScraper.scrape_new [sub₁] now,
      p.status = RedditScraper.determine_status sub₁.link_flair_text)
    ∧ (∀ p ∈ RedditScraper.scrape_hot [sub₁] now,
      p.status = RedditScraper.determine_status sub₁.link_flair_text)
    ∧ (∀ p ∈ RedditScraper.scrape_solved [sub₂] now, p.status = PostStatus.SOLVED)
    ∧ ((containsSub (pyLower (f₁.getD "")) "solved"
          || containsSub (pyLower (f₁.getD "")) "answered") = true →
        RedditScraper.determine_status f₁ = PostStatus.SOLVED)
    ∧ ((containsSub (pyLower (f₂.getD "")) "solved"
          || containsSub (pyLower (f₂.getD "")) "answered") = false →
       (containsSub (pyLower (f₂.getD "")) "open"
          || containsSub (pyLower (f₂.getD "")) "searching") = true →
        RedditScraper.determine_status f₂ = PostStatus.OPEN)
    ∧ ((containsSub (pyLower (f₃.getD "")) "solved"
          || containsSub (pyLower (f₃.getD "")) "answered") = false →
       (containsSub (pyLower (f₃.getD "")) "open"
          || containsSub (pyLower (f₃.getD "")) "searching") = false →
       (containsSub (pyLower (f₃.getD "")) "unsolved"
          || containsSub (pyLower (f₃.getD "")) "closed") = true →
        RedditScraper.determine_status f₃ = PostStatus.UNSOLVED)
    ∧ ((containsSub (pyLower (f₄.getD "")) "solved"
          || containsSub (pyLower (f₄.getD "")) "answered") = false →
       (containsSub (pyLower (f₄.getD "")) "open"
          || containsSub (pyLower (f₄.getD "")) "searching") = false →
       (containsSub (pyLower (f₄.getD "")) "unsolved"
          || containsSub (pyLower (f₄.getD "")) "closed") = false →
        RedditScraper.determine_status f₄ = PostStatus.UNKNOWN) := by
  refine ⟨?_, ?_, ?_, ?_, ?_, ?_, ?_⟩
  · intro p hp
    simp only [RedditScraper.scrape_new, List.mem_map] at hp
    obtain ⟨a, ha, rfl⟩ := hp
    have haa : a = sub₁ := by simpa using (List.mem_filter.mp ha).1
    subst haa
    rfl
  · intro p hp
    simp only [RedditScraper.scrape_hot, List.mem_map] at hp
    obtain ⟨a, ha, rfl⟩ := hp
    have haa : a = sub₁ := by simpa using (List.mem_filter.mp ha).1
    subst haa
    rfl
  · intro p hp
    simp only [RedditScraper.scrape_solved, List.mem_map] at hp
    obtain ⟨a, ha, rfl⟩ := hp
    rfl
  · intro h
    simp [RedditScraper.determine_status, h]
  · intro h1 h2
    simp [RedditScraper.determine_status, h1, h2]
  · intro h1 h2 h3
    simp [RedditScraper.determine_status, h1, h2, h3]
  · intro h1 h2 h3
    simp [RedditScraper.determine_status, h1, h2, h3]

theorem status_from_flair_precedence_witness :
    (RedditScraper.submission_to_post musicSub 0).status
        = RedditScraper.determine_status musicSub.link_flair_text
    ∧ RedditScraper.determine_status (some "Solved") = PostStatus.SOLVED
    ∧ RedditScraper.determine_status (some "Open") = PostStatus.OPEN
    ∧ RedditScraper.determine_status (some "closed") = PostStatus.UNSOLVED
    ∧ RedditScraper.determine_status (some "weird") = PostStatus.UNKNOWN := by
  have t := status_from_flair_precedence musicSub openFlairSub 0
    (some "Solved") (some "Open") (some "closed") (some "weird")
  exact ⟨t.1 (RedditScraper.submission_to_post musicSub 0) (by decide),
    t.2.2.2.1 (by decide),
    t.2.2.2.2.1 (by decide) (by decide),
    t.2.2.2.2.2.1 (by decide) (by decide) (by decide),
    t.2.2.2.2.2.2 (by decide) (by decide) (by decide)⟩

end Tomt

namespace Tomt

/-- First-scrape version of a post, stored with `scraped_at = 1`. -/
def p4a : Post :=
  { id := "t1", subreddit := "tipofmytongue", title := "old title",
    body := "b", author := "u", url := "https://reddit.com/t1",
    created_at := 0, scraped_at := 1, status := PostStatus.OPEN,
    flair := some "Open", score := 1, num_comments := 0, audio_links := [],
    description := none, solution_comment_id := none, solution_text := none,
    identified_song_id := none }

/-- Re-scrape of the same thread: same id, `scraped_at = 2`, refreshed
metadata. -/
def p4b : Post :=
  { p4a with scraped_at := 2, score := 5, status := PostStatus.SOLVED,
             flair := some "Solved" }

/-- Counterexample to claim C4: re-saving the same post overwrites
`scraped_at` — after saving `p4a` (scraped at 1) and then `p4b` (same id,
scraped at 2), the stored row carries 2, not the first-insertion value 1. -/
theorem scraped_at_not_preserved :
    p4a.id = p4b.id ∧ p4a.scraped_at = 1 ∧
    ((DB.empty.save_post p4a).save_post p4b).posts.map PostRecord.scraped_at = [2] :=
  ⟨rfl, rfl, by decide⟩

/-- Claim C4 (amended): `save_post` on an already-present id overwrites
every stored field with the incoming post's values — the mutable fields,
but also `scraped_at`, which therefore equals the most recent save's
value rather than the first insertion's. -/
theorem save_post_overwrites_all (db : DB) (post : Post) :
    ∀ r ∈ (db.save_post post).posts, r.id = post.id →
      r = PostRecord.from_model post ∧ r.scraped_at = post.scraped_at := by
  intro r hr hid
  unfold DB.save_post at hr
  by_cases h : db.posts.any (fun r => r.id = post.id)
  · rw [if_pos h] at hr
    simp only [List.mem_map] at hr
    obtain ⟨r₀, _, rfl⟩ := hr
    by_cases h₀ : r₀.id = post.id
    · rw [if_pos h₀]
      exact ⟨rfl, rfl⟩
    · simp only [if_neg h₀] at hid ⊢
      exact absurd hid h₀
  · rw [if_neg h] at hr
    rcases List.mem_append.mp hr with hl | hr'
    · rw [Bool.not_eq_true, List.any_eq_false] at h
      have := h r hl
      simp only [decide_eq_true_eq] at this
      exact absurd hid this
    · simp only [List.mem_singleton] at hr'
      subst hr'
      exact ⟨rfl, rfl⟩

/-- Witness for claim C4 (amended): the re-saved row for `p4b` is exactly
`from_model p4b`, with `p4b`'s scrape time. -/
theorem save_post_overwrites_all_witness :
    PostRecord.from_model p4b = PostRecord.from_model p4b ∧
    (PostRecord.from_model p4b).scraped_at = p4b.scraped_at :=
  save_post_overwrites_all (DB.empty.save_post p4a) p4b
    (PostRecord.from_model p4b) (by decide) (by decide)

end Tomt

namespace Tomt

/-- A general-group thread tagged `[TOMT][Movie]`, with no music
indicator in flair or title. -/
def tomtMovieSub : RedditScraper.Submission :=
  { id := "g1", subreddit_display_name := "tipofmytongue",
    title := "[TOMT][Movie] help me find this film", selftext := some "a movie",
    author := some "u", permalink := "/r/tipofmytongue/g1", created_utc := 0,
    link_flair_text := some "[TOMT][Movie]", score := 0, num_comments := 0 }

/-- A general-group thread whose flair `[TOMT][Song]` carries a music
indicator. -/
def tomtSongFlairSub : RedditScraper.Submission :=
  { id := "g2", subreddit_display_name := "tipofmytongue",
    title := "help me find this", selftext := some "a tune",
    author := some "u", permalink := "/r/tipofmytongue/g2", created_utc := 0,
    link_flair_text := some "[TOMT][Song]", score := 0, num_comments := 0 }

/-- Claim C9: a tipofmytongue thread with no music indicator in flair or
title is silently dropped by `scrape_new` (not yielded); every thread from
a music-dedicated group, and every general-group thread whose flair or
title matches a music indicator, is yielded; concretely, flair
`[TOMT][Song]` is kept and `[TOMT][Movie]` with no indicator is dropped. -/
theorem relevance_filter (sub dsub isub : RedditScraper.Submission)
    (now : DateTime) :
    (pyLower sub.subreddit_display_name = "tipofmytongue" →
     containsSub (pyLower (sub.link_flair_text.getD "")) "song" = false →
     containsSub (pyLower (sub.link_flair_text.getD "")) "music" = false →
     (RedditScraper.MUSIC_FLAIR_PATTERNS.any
        (fun p => searchPat p sub.title.data)) = false →
     RedditScraper.is_music_post sub = false ∧
       RedditScraper.scrape_new [sub] now = [])
    ∧ ((pyLower dsub.subreddit_display_name = "whatsthissong" ∨
        pyLower dsub.subreddit_display_name = "namethatsong") →
       RedditScraper.scrape_new [dsub] now
         = [RedditScraper.submission_to_post dsub now])
    ∧ (pyLower isub.subreddit_display_name = "tipofmytongue" →
       (containsSub (pyLower (isub.link_flair_text.getD "")) "song" = true ∨
        containsSub (pyLower (isub.link_flair_text.getD "")) "music" = true ∨
        (RedditScraper.MUSIC_FLAIR_PATTERNS.any
           (fun p => searchPat p isub.title.data)) = true) →
       RedditScraper.scrape_new [isub] now
         = [RedditScraper.submission_to_post isub now])
    ∧ RedditScraper.is_music_post tomtSongFlairSub = true
    ∧ RedditScraper.is_music_post tomtMovieSub = false := by
  refine ⟨?_, ?_, ?_, by decide, by decide⟩
  · intro hg hf1 hf2 ht
    have hmusic : RedditScraper.is_music_post sub = false := by
      unfold RedditScraper.is_music_post
      rw [hg]
      simp [hf1, hf2, ht]
    exact ⟨hmusic, by simp [RedditScraper.scrape_new, hmusic]⟩
  · intro hd
    have hmusic : RedditScraper.is_music_post dsub = true := by
      unfold RedditScraper.is_music_post
      rcases hd with h | h <;> rw [h] <;> simp
    simp [RedditScraper.scrape_new, hmusic]
  · intro hg hi
    have hmusic : RedditScraper.is_music_post isub = true := by
      unfold RedditScraper.is_music_post
      rw [hg]
      rcases hi with h | h | h <;> simp [h]
    simp [RedditScraper.scrape_new, hmusic]

/-- Witness for claim C9: the movie thread is dropped while the dedicated
r/WhatsThisSong thread and the `[TOMT][Song]`-flaired thread are yielded. -/
theorem relevance_filter_witness :
    RedditScraper.is_music_post tomtMovieSub = false ∧
    RedditScraper.scrape_new [tomtMovieSub] 0 = [] ∧
    RedditScraper.scrape_new [openFlairSub] 0
      = [RedditScraper.submission_to_post openFlairSub 0] ∧
    RedditScraper.scrape_new [tomtSongFlairSub] 0
      = [RedditScraper.submission_to_post tomtSongFlairSub 0] := by
  have t := relevance_filter tomtMovieSub openFlairSub tomtSongFlairSub 0
  have h1 := t.1 (by decide) (by decide) (by decide) (by decide)
  exact ⟨h1.1, h1.2, t.2.1 (Or.inl (by decide)),
    t.2.2.1 (by decide) (Or.inl (by decide))⟩

end Tomt

namespace Tomt

/-- The merge loop only appends: the old list is a prefix of the result. -/
theorem mergeDescriptions_append (inc : List String) :
    ∀ acc, ∃ t, mergeDescriptions acc inc = acc ++ t := by
  induction inc with
  | nil => exact fun acc => ⟨[], by simp [mergeDescriptions]⟩
  | cons x inc ih =>
    intro acc
    unfold mergeDescriptions at ih ⊢
    simp only [List.foldl_cons]
    by_cases hx : x ∈ acc
    · rw [if_pos hx]
      exact ih acc
    · rw [if_neg hx]
      obtain ⟨t, ht⟩ := ih (acc ++ [x])
      exact ⟨[x] ++ t, by rw [ht, List.append_assoc]⟩

/-- Membership in the merged description list: exactly the old and the
incoming strings. -/
theorem mergeDescriptions_mem (inc : List String) :
    ∀ acc d, d ∈ mergeDescriptions acc inc ↔ d ∈ acc ∨ d ∈ inc := by
  induction inc with
  | nil => intro acc d; simp [mergeDescriptions]
  | cons x inc ih =>
    intro acc d
    unfold mergeDescriptions at ih ⊢
    simp only [List.foldl_cons, List.mem_cons]
    by_cases hx : x ∈ acc
    · rw [if_pos hx, ih acc d]
      constructor
      · rintro (h | h)
        · exact Or.inl h
        · exact Or.inr (Or.inr h)
      · rintro (h | h | h)
        · exact Or.inl h
        · exact Or.inl (h ▸ hx)
        · exact Or.inr h
    · rw [if_neg hx, ih (acc ++ [x]) d]
      simp [List.mem_append, or_assoc]

/-- The merge loop never introduces an exact-string duplicate. -/
theorem mergeDescriptions_nodup (inc : List String) :
    ∀ acc, acc.Nodup → (mergeDescriptions acc inc).Nodup := by
  induction inc with
  | nil => intro acc h; simpa [mergeDescriptions] using h
  | cons x inc ih =>
    intro acc h
    unfold mergeDescriptions at ih ⊢
    simp only [List.foldl_cons]
    by_cases hx : x ∈ acc
    · rw [if_pos hx]
      exact ih acc h
    · rw [if_neg hx]
      refine ih _ ?_
      rw [List.nodup_append]
      exact ⟨h, List.nodup_singleton x, List.disjoint_singleton.mpr hx⟩

/-- Unfolding `save_song` when no row with the song's id exists: the new
row is appended. -/
theorem save_song_songs_insert (db : DB) (s : Song) (sp : Option Post)
    (h : (db.songs.any (fun r => r.id = s.id)) = false) :
    (db.save_song s sp).songs = db.songs ++ [SongRecord.from_model s] := by
  simp only [DB.save_song, h, Bool.false_eq_true, if_false]

/-- Unfolding `save_song` when a row with the song's id exists: matching
rows get `discovery_count + 1` and merged descriptions; nothing else
changes. -/
theorem save_song_songs_update (db : DB) (s : Song) (sp : Option Post)
    (h : (db.songs.any (fun r => r.id = s.id)) = true) :
    (db.save_song s sp).songs = db.songs.map (fun r =>
      if r.id = s.id then
        { r with
          discovery_count := r.discovery_count + 1
          original_descriptions :=
            mergeDescriptions r.original_descriptions s.original_descriptions }
      else r) := by
  simp only [DB.save_song, h, if_true]

/-- Claim C2: `save_song` behaves as a merge — a fresh id is inserted with
`discovery_count = 1` (the count the parser always produces), an existing
row gains exactly 1 per call, keeps its first-seen title/artist/album/year
and other fields, and absorbs only the not-already-present incoming
description strings without re-appending exact duplicates; two saves of
songs with the same normalized identity leave exactly one row, with
`discovery_count = 2`. -/
theorem save_song_merges (dbA dbB dbD : DB) (songA songB s₁ s₂ : Song)
    (spA spB sp₁ sp₂ : Option Post) (rB : SongRecord) :
    ((dbA.songs.any (fun r => r.id = songA.id)) = false →
      songA.discovery_count = 1 →
      ∀ r ∈ (dbA.save_song songA spA).songs, r.id = songA.id →
        r.discovery_count = 1)
    ∧ (rB ∈ dbB.songs → rB.id = songB.id →
        { rB with
          discovery_count := rB.discovery_count + 1
          original_descriptions :=
            mergeDescriptions rB.original_descriptions songB.original_descriptions }
          ∈ (dbB.save_song songB spB).songs)
    ∧ (∀ old inc : List String,
        (∀ d, d ∈ mergeDescriptions old inc ↔ d ∈ old ∨ d ∈ inc)
        ∧ (mergeDescriptions old inc).take old.length = old
        ∧ (old.Nodup → (mergeDescriptions old inc).Nodup))
    ∧ (s₁.id = s₂.id → s₁.discovery_count = 1 →
        (dbD.songs.any (fun r => r.id = s₁.id)) = false →
        (((dbD.save_song s₁ sp₁).save_song s₂ sp₂).songs.filter
            (fun r => r.id = s₁.id)).length = 1
        ∧ ∀ r ∈ ((dbD.save_song s₁ sp₁).save_song s₂ sp₂).songs,
            r.id = s₁.id → r.discovery_count = 2) := by
  refine ⟨?_, ?_, ?_, ?_⟩
  · intro hany h1 r hr hid
    rw [save_song_songs_insert dbA songA spA hany] at hr
    rcases List.mem_append.mp hr with hl | hr'
    · rw [List.any_eq_false] at hany
      have := hany r hl
      simp only [decide_eq_true_eq] at this
      exact absurd hid this
    · rw [List.mem_singleton] at hr'
      subst hr'
      exact h1
  · intro hmem hid
    have hany : (dbB.songs.any (fun r => r.id = songB.id)) = true :=
      List.any_eq_true.mpr ⟨rB, hmem, by simp [hid]⟩
    have := List.mem_map_of_mem (fun r =>
      if r.id = songB.id then
        { r with
          discovery_count := r.discovery_count + 1
          original_descriptions :=
            mergeDescriptions r.original_descriptions songB.original_descriptions }
      else r) hmem
    rw [save_song_songs_update dbB songB spB hany]
    simpa [hid] using this
  · intro old inc
    refine ⟨fun d => mergeDescriptions_mem inc old d, ?_,
      fun h => mergeDescriptions_nodup inc old h⟩
    obtain ⟨t, ht⟩ := mergeDescriptions_append inc old
    rw [ht]
    exact List.take_left old t
  · intro h12 h1 hany
    have hup : ∀ r : SongRecord,
        ((if r.id = s₂.id then
          { r with
            discovery_count := r.discovery_count + 1
            original_descriptions :=
              mergeDescriptions r.original_descriptions s₂.original_descriptions }
          else r) : SongRecord).id = r.id := by
      intro r
      by_cases h : r.id = s₂.id <;> simp [h]
    have hsongs1 : (dbD.save_song s₁ sp₁).songs
        = dbD.songs ++ [SongRecord.from_model s₁] :=
      save_song_songs_insert dbD s₁ sp₁ hany
    have hany2 : ((dbD.save_song s₁ sp₁).songs.any (fun r => r.id = s₂.id)) = true := by
      rw [hsongs1]
      refine List.any_eq_true.mpr ⟨SongRecord.from_model s₁, ?_, by simp [SongRecord.from_model, h12]⟩
      simp
    have hsongs2 : ((dbD.save_song s₁ sp₁).save_song s₂ sp₂).songs
        = (dbD.songs ++ [SongRecord.from_model s₁]).map (fun r =>
            if r.id = s₂.id then
              { r with
                discovery_count := r.discovery_count + 1
                original_descriptions :=
                  mergeDescriptions r.original_descriptions s₂.original_descriptions }
            else r) := by
      rw [save_song_songs_update _ s₂ sp₂ hany2, hsongs1]
    constructor
    · rw [hsongs2, List.filter_map]
      rw [List.filter_congr (q := fun r => decide (r.id = s₁.id))
        (fun r _ => by simp [Function.comp, hup r])]
      rw [List.filter_append]
      have hnil : dbD.songs.filter (fun r => r.id = s₁.id) = [] := by
        rw [List.filter_eq_nil_iff]
        rw [List.any_eq_false] at hany
        exact hany
      rw [hnil]
      simp [SongRecord.from_model, h12]
    · intro r hr hid
      rw [hsongs2] at hr
      rw [List.mem_map] at hr
      obtain ⟨r₀, hr₀, rfl⟩ := hr
      rw [hup r₀] at hid
      rcases List.mem_append.mp hr₀ with hl | hr'
      · rw [List.any_eq_false] at hany
        have := hany r₀ hl
        simp only [decide_eq_true_eq] at this
        exact absurd hid this
      · rw [List.mem_singleton] at hr'
        subst hr'
        rw [if_pos (by simp [SongRecord.from_model, h12])]
        simp [SongRecord.from_model, h1]

end Tomt

namespace Tomt

/-- A parser-produced song (`discovery_count = 1`) for the C2 witness. -/
def wSong1 : Song :=
  { id := "artist_song", title := "Song", artist := "Artist", album := none,
    year := none, spotify_url := none, youtube_url := none,
    apple_music_url := none, discovered_at := 0, source_post_ids := ["p1"],
    discovery_count := 1, original_descriptions := ["a synth song"] }

/-- A second discovery of the same identity from another request. -/
def wSong2 : Song :=
  { wSong1 with source_post_ids := ["p2"],
                original_descriptions := ["a synth song", "another desc"] }

/-- An existing stored row for the same song id with count 3. -/
def wRec : SongRecord :=
  { id := "artist_song", title := "Song", artist := "Artist", album := none,
    year := none, spotify_url := none, youtube_url := none,
    apple_music_url := none, discovered_at := 0, discovery_count := 3,
    original_descriptions := ["a synth song"] }

/-- Store holding just `wRec`. -/
def dbB0 : DB := { posts := [], songs := [wRec] }

/-- Witness for claim C2 at concrete inputs: fresh insert keeps count 1,
the existing row is bumped to 4 with merged descriptions, the merge is
append-only, and the double-discovery scenario yields one row of count 2. -/
theorem save_song_merges_witness :
    (∀ r ∈ (DB.empty.save_song wSong1 none).songs, r.id = wSong1.id →
      r.discovery_count = 1)
    ∧ { wRec with
        discovery_count := wRec.discovery_count + 1
        original_descriptions :=
          mergeDescriptions wRec.original_descriptions wSong2.original_descriptions }
        ∈ (dbB0.save_song wSong2 none).songs
    ∧ (mergeDescriptions ["x"] ["x", "y"]).take 1 = ["x"]
    ∧ (((DB.empty.save_song wSong1 none).save_song wSong2 none).songs.filter
        (fun r => r.id = wSong1.id)).length = 1
    ∧ (∀ r ∈ ((DB.empty.save_song wSong1 none).save_song wSong2 none).songs,
        r.id = wSong1.id → r.discovery_count = 2) := by
  have t := save_song_merges DB.empty dbB0 DB.empty wSong1 wSong2 wSong1 wSong2
    none none none none wRec
  have h4 := t.2.2.2 (by decide) (by decide) (by decide)
  refine ⟨t.1 (by decide) (by decide), t.2.1 (by decide) (by decide), ?_,
    h4.1, h4.2⟩
  have := (t.2.2.1 ["x"] ["x", "y"]).2.1
  simpa using this

end Tomt

namespace Tomt

/-- A parser-shaped song used by the C1 counterexample and witness. -/
def c1Song : Song :=
  { id := "a_b", title := "B", artist := "A", album := none, year := none,
    spotify_url := none, youtube_url := none, apple_music_url := none,
    discovered_at := 0, source_post_ids := ["p1"], discovery_count := 1,
    original_descriptions := [] }

/-- Counterexample to claim C1: a reachable store state violates the
discovery-count invariant — `save_song` without a source post (exactly what
`process_solved_posts` does when the solved post is absent from the store)
stores a song with `discovery_count = 1` and zero linked requests. -/
theorem countInv_not_maintained :
    ¬ (runOps [StoreOp.saveSong c1Song none]).countInv := by decide

/-- Unfolding the post side of `save_song` with a source post: matching
rows get the song id written into `identified_song_id`. -/
theorem save_song_posts_link (db : DB) (s : Song) (p : Post) :
    (db.save_song s (some p)).posts = db.posts.map (fun r =>
      if r.id = p.id then { r with identified_song_id := some s.id } else r) := by
  simp only [DB.save_song]

/-- Effect of the link update on link counts: when every row matching the
post id is unlinked, linking adds exactly the number of matching rows to
the linked-request count of the target song and leaves every other song's
count unchanged. -/
theorem linkCount_map_link (pid sid sid' : String) :
    ∀ posts : List PostRecord,
      (∀ r ∈ posts, r.id = pid → r.identified_song_id = none) →
      ((posts.map (fun r =>
          if r.id = pid then { r with identified_song_id := some sid } else r)).filter
            (fun r => r.identified_song_id = some sid')).length
        = (posts.filter (fun r => r.identified_song_id = some sid')).length
          + (if sid' = sid then (posts.filter (fun r => r.id = pid)).length else 0) := by
  intro posts
  induction posts with
  | nil => intro _; simp
  | cons r rest ih =>
    intro h
    have hrest := ih (fun x hx => h x (List.mem_cons_of_mem _ hx))
    simp only [List.map_cons, List.filter_cons]
    by_cases hr : r.id = pid
    · have hnone := h r (List.mem_cons_self _ _) hr
      by_cases hs : sid' = sid
      · subst hs
        simp [hr, hnone, hrest]
        omega
      · have hs' : ¬ sid = sid' := fun hh => hs hh.symm
        simp [hr, hnone, hrest, hs, hs']
    · by_cases hp : r.identified_song_id = some sid'
      · simp [hr, hp, hrest]
        by_cases hs : sid' = sid
        · simp [hs]
          omega
        · simp [hs]
      · simp [hr, hp, hrest]

/-- Claim C1 (amended): the equality `discovery_count = number of linked
requests` is not maintained across arbitrary store operations; it is
preserved by the link operation `save_song song (some post)` only under the
conditions the resolution pass happens to arrange — the state already
satisfies it, exactly one stored row has the source post's id and that row
is not yet linked to any song, and when the song id is new the incoming
count is 1 and no stored post links to it yet. -/
theorem save_song_link_preserves_countInv (db : DB) (song : Song) (post : Post)
    (hinv : db.countInv)
    (hone : (db.posts.filter (fun r => r.id = post.id)).length = 1)
    (hunlinked : ∀ r ∈ db.posts, r.id = post.id → r.identified_song_id = none)
    (hfresh : (db.songs.any (fun r => r.id = song.id)) = false →
      song.discovery_count = 1 ∧ db.linkCount song.id = 0) :
    (db.save_song song (some post)).countInv := by
  have hlc : ∀ sid', (db.save_song song (some post)).linkCount sid'
      = db.linkCount sid' + (if sid' = song.id then 1 else 0) := by
    intro sid'
    unfold DB.linkCount
    rw [save_song_posts_link db song post,
      linkCount_map_link post.id song.id sid' db.posts hunlinked, hone]
  unfold DB.countInv
  intro r' hr'
  by_cases hany : (db.songs.any (fun r => r.id = song.id)) = true
  · rw [save_song_songs_update db song (some post) hany] at hr'
    rw [List.mem_map] at hr'
    obtain ⟨r₀, hr₀, rfl⟩ := hr'
    by_cases h0 : r₀.id = song.id
    · rw [if_pos h0, hlc]
      simp [h0, hinv r₀ hr₀]
    · rw [if_neg h0, hlc]
      simp [h0, hinv r₀ hr₀]
  · have hany' : (db.songs.any (fun r => r.id = song.id)) = false :=
      Bool.not_eq_true _ ▸ hany
    obtain ⟨hc1, hl0⟩ := hfresh hany'
    rw [save_song_songs_insert db song (some post) hany'] at hr'
    rcases List.mem_append.mp hr' with hl | hr''
    · have hne : ¬ r'.id = song.id := by
        rw [List.any_eq_false] at hany'
        have := hany' r' hl
        simpa using this
      rw [hlc]
      simp [hne, hinv r' hl]
    · rw [List.mem_singleton] at hr''
      subst hr''
      rw [hlc]
      simp [SongRecord.from_model, hc1, hl0]

/-- A stored, unlinked solved post row. -/
def c1PostRec : PostRecord :=
  { id := "p1", subreddit := "tipofmytongue", title := "t", body := "b",
    author := "u", url := "https://reddit.com/p1", created_at := 0,
    scraped_at := 1, status := PostStatus.SOLVED, flair := some "Solved",
    score := 0, num_comments := 1, audio_links := [], description := none,
    solution_comment_id := none, solution_text := none,
    identified_song_id := none }

/-- The same solved post as a model value, as the resolution pass passes
it to `save_song`. -/
def c1Post : Post :=
  { id := "p1", subreddit := "tipofmytongue", title := "t", body := "b",
    author := "u", url := "https://reddit.com/p1", created_at := 0,
    scraped_at := 1, status := PostStatus.SOLVED, flair := some "Solved",
    score := 0, num_comments := 1, audio_links := [], description := none,
    solution_comment_id := none, solution_text := none,
    identified_song_id := none }

/-- Store holding just the unlinked solved post. -/
def c1DB : DB := { posts := [c1PostRec], songs := [] }

/-- Witness for claim C1 (amended): linking a fresh song to the stored
unlinked post preserves the invariant. -/
theorem save_song_link_preserves_countInv_witness :
    (c1DB.save_song c1Song (some c1Post)).countInv :=
  save_song_link_preserves_countInv c1DB c1Song c1Post
    (by decide) (by decide) (by decide) (by decide)

end Tomt

namespace Tomt

/-- A reply on the solved thread, as flattened by the scraper. -/
def c6Comment : Comment :=
  { id := "c1", author := "ua", body := "It is Blue Monday by New Order",
    score := 10, created_at := 2, is_submitter := false, is_op_reply := true }

/-- A decoded response whose `found` value is the truthy string "maybe",
not the boolean `true`. -/
def foundKvs : List (String × Json) :=
  [("found", Json.str "maybe"), ("song_title", Json.str "Song X"),
   ("artist", Json.str "Artist Y")]

/-- Counterexample to claim C6: the code tests `result.get("found")` for
Python truthiness, not for the value `true` — a response whose `found`
field is the string "maybe" still produces a Song, although the parsed
JSON does not report `found:true`. -/
theorem solution_found_truthiness :
    PostParser.extract_solution (fun _ => some (Json.obj foundKvs))
        (fun _ => "resp") c7post [c6Comment] 7
      = Except.ok (some
          { id := "artist_y_song_x", title := "Song X", artist := "Artist Y",
            album := none, year := none, spotify_url := none,
            youtube_url := none, apple_music_url := none, discovered_at := 7,
            source_post_ids := ["p7"], discovery_count := 1,
            original_descriptions := [] })
    ∧ pyDictGet foundKvs "found" = some (Json.str "maybe")
    ∧ Json.str "maybe" ≠ Json.bool true :=
  ⟨rfl, rfl, nofun⟩

/-- Claim C6 (amended): solution extraction short-circuits to "no result"
on an empty reply list for every capability (the capability is never
consulted); it returns "no result", without raising, on JSON decode
failure, on a missing `artist`/`song_title` key, and on a falsy `found`
value; and it produces a Song only when the decoded response is a JSON
object whose `found` value is truthy (not necessarily the boolean `true` —
see the counterexample) with string `artist` and `song_title` values, the
Song id being the normalized artist/title pair. -/
theorem solution_defensive (decode : String → Option Json)
    (api : String → String) (post : Post) (comments : List Comment)
    (now : DateTime) (song : Song) (kvs : List (String × Json)) :
    (comments = [] →
      PostParser.extract_solution decode api post comments now = Except.ok none)
    ∧ (decode ((stripFence (api (EXTRACT_SOLUTION_PROMPT post.title post.body
          (commentsText comments)))).trim) = none →
        PostParser.extract_solution decode api post comments now = Except.ok none)
    ∧ (decode ((stripFence (api (EXTRACT_SOLUTION_PROMPT post.title post.body
          (commentsText comments)))).trim) = some (Json.obj kvs) →
       (pyDictGet kvs "artist" = none ∨ pyDictGet kvs "song_title" = none) →
        PostParser.extract_solution decode api post comments now = Except.ok none)
    ∧ (decode ((stripFence (api (EXTRACT_SOLUTION_PROMPT post.title post.body
          (commentsText comments)))).trim) = some (Json.obj kvs) →
       truthyOpt (pyDictGet kvs "found") = false →
        PostParser.extract_solution decode api post comments now = Except.ok none)
    ∧ (PostParser.extract_solution decode api post comments now
          = Except.ok (some song) →
        comments ≠ [] ∧ ∃ kvs' : List (String × Json),
          decode ((stripFence (api (EXTRACT_SOLUTION_PROMPT post.title post.body
              (commentsText comments)))).trim) = some (Json.obj kvs')
          ∧ truthyOpt (pyDictGet kvs' "found") = true
          ∧ (∃ ar, pyDictGet kvs' "artist" = some (Json.str ar))
          ∧ (∃ ti, pyDictGet kvs' "song_title" = some (Json.str ti))
          ∧ song.id = mkSongId song.artist song.title) := by
  refine ⟨?_, ?_, ?_, ?_, ?_⟩
  · intro hc
    subst hc
    rfl
  · intro hd
    cases hc : comments.isEmpty
    · simp only [PostParser.extract_solution, hc, Bool.false_eq_true, if_false]
      rw [hd]
    · simp only [PostParser.extract_solution, hc, if_true]
  · intro hd hmiss
    cases hc : comments.isEmpty
    · simp only [PostParser.extract_solution, hc, Bool.false_eq_true, if_false]
      rw [hd]
      cases hft : truthyOpt (pyDictGet kvs "found")
      · simp [hft]
      · simp only [hft, if_true]
        rcases hmiss with ha | ht
        · rw [ha]
        · rw [ht]
          cases pyDictGet kvs "artist" <;> rfl
    · simp only [PostParser.extract_solution, hc, if_true]
  · intro hd hft
    cases hc : comments.isEmpty
    · simp only [PostParser.extract_solution, hc, Bool.false_eq_true, if_false]
      rw [hd]
      simp [hft]
    · simp only [PostParser.extract_solution, hc, if_true]
  · intro h
    cases hc : comments.isEmpty
    · simp only [PostParser.extract_solution, hc, Bool.false_eq_true, if_false] at h
      refine ⟨by simpa using hc, ?_⟩
      split at h
      · exact absurd h (by simp)
      · rename_i kvs' hdec
        refine ⟨kvs', hdec, ?_⟩
        split at h
        · rename_i hft
          refine ⟨by simpa using hft, ?_⟩
          split at h
          · rename_i a t hart hti
            split at h
            · rename_i ti ar
              split at h
              · rename_i album year halb hyr
                simp only [Except.ok.injEq, Option.some.injEq] at h
                subst h
                exact ⟨⟨ar, hart⟩, ⟨ti, hti⟩, rfl⟩
              · exact absurd h (by simp)
            · exact absurd h (by simp)
          · exact absurd h (by simp)
        · exact absurd h (by simp)
      · exact absurd h (by simp)
    · simp only [PostParser.extract_solution, hc, if_true] at h
      exact absurd h (by simp)

/-- A well-formed successful extraction response. -/
def okKvs : List (String × Json) :=
  [("found", Json.bool true), ("song_title", Json.str "Blue Monday"),
   ("artist", Json.str "New Order")]

/-- The Song the parser builds from `okKvs` on `c7post`. -/
def okSong : Song :=
  { id := "new_order_blue_monday", title := "Blue Monday",
    artist := "New Order", album := none, year := none, spotify_url := none,
    youtube_url := none, apple_music_url := none, discovered_at := 0,
    source_post_ids := ["p7"], discovery_count := 1,
    original_descriptions := [] }

/-- Witness for claim C6 (amended): an empty reply list short-circuits, a
decoded empty object (missing keys, falsy `found`) gives "no result", and
a `found:true` response with artist and title produces a Song on a
non-empty reply list. -/
theorem solution_defensive_witness :
    PostParser.extract_solution (fun _ => none) (fun _ => "") c7post [] 0
        = Except.ok none
    ∧ PostParser.extract_solution (fun _ => some (Json.obj []))
        (fun _ => "x") c7post [c6Comment] 0 = Except.ok none
    ∧ [c6Comment] ≠ ([] : List Comment) :=
  ⟨(solution_defensive (fun _ => none) (fun _ => "") c7post [] 0 c1Song []).1 rfl,
   (solution_defensive (fun _ => some (Json.obj [])) (fun _ => "x") c7post
      [c6Comment] 0 c1Song []).2.2.1 rfl (Or.inl rfl),
   ((solution_defensive (fun _ => some (Json.obj okKvs)) (fun _ => "x") c7post
      [c6Comment] 0 okSong []).2.2.2.2 rfl).1⟩

end Tomt
